import Mathlib

/-!
Verification of the AnalogChannel channel-strip DSP core.

Shallow embedding of the processing code over exact rationals: every C++
`float`/`double` value is modelled as a `ℚ`, transcendental library calls
(`log10`, `sqrt`, `pow`, coefficient factories) are passed in as explicit
function parameters, and stateful per-sample processing becomes explicit
state passing.  Definitions follow the source files under `Source/`
(`Sections/BypassableSection.h`, `Sections/LowDynamicSection.h`,
`Sections/EQSection.h`, `Sections/FilterSection.h`,
`Algorithms/BellFilter.h`, `Algorithms/Baxandall2.h`,
`PluginProcessor.cpp`).
-/

/-- Embedding of `juce::jlimit (lo, hi, v)`: `v < lo ? lo : hi < v ? hi : v`. -/
def jlimit (lo hi v : ℚ) : ℚ :=
  if v < lo then lo else if hi < v then hi else v

/-- State owned by the `BypassableSection` base class
(`Sections/BypassableSection.h`), parametrised by the subclass state `σ`:
the bypass target flag, the crossfade mix (0 = processing, 1 = bypassed),
the fade coefficient `1/(0.01*sampleRate)`, and the subclass state. -/
structure BypassState (σ : Type) where
  targetBypass : Bool
  bypassMix : ℚ
  fadeCoeff : ℚ
  inner : σ
  deriving Repr

namespace BypassableSection

/-- Embedding of `BypassableSection::setBypass`: stores the target flag. -/
def setBypass {σ : Type} (shouldBypass : Bool) (s : BypassState σ) : BypassState σ :=
  { s with targetBypass := shouldBypass }

/-- Embedding of `BypassableSection::process` (BypassableSection.h lines 75-123),
parametrised by the subclass virtual functions: `pi` embeds
`processInternal` (returning output and updated subclass state) and `rst`
embeds `reset`.  Returns the output sample and the updated section state. -/
def process {σ : Type} (pi : σ → ℚ → ℚ × σ) (rst : σ → σ)
    (s : BypassState σ) (input : ℚ) : ℚ × BypassState σ :=
  if s.targetBypass then
    -- reset state immediately when bypass is activated
    let s0 := if s.bypassMix = 0 then { s with inner := rst s.inner } else s
    if s0.bypassMix < 99/100 then
      let m := s0.bypassMix + (1 - s0.bypassMix) * s0.fadeCoeff
      let m' := if m > 99/100 then 1 else m
      -- during fade: no processing, the dry input is returned
      (input, { s0 with bypassMix := m' })
    else
      -- fully bypassed: skip processing entirely
      (input, s0)
  else
    if s.bypassMix > 1/100 then
      let m := s.bypassMix + (0 - s.bypassMix) * s.fadeCoeff
      let m' := if m < 1/100 then 0 else m
      -- during fade: mix wet and dry
      let w := pi s.inner input
      (w.1 * (1 - m') + input * m', { s with bypassMix := m', inner := w.2 })
    else
      -- fully active: process normally
      let w := pi s.inner input
      (w.1, { s with inner := w.2 })

end BypassableSection

/-- Embedding of `VolumeSection::processInternal` (Sections/VolumeSection.h): plain gain
multiplication; the subclass state is the cached linear gain, unchanged by
processing. -/
def volumeProcessInternal (gainLinear : ℚ) (input : ℚ) : ℚ × ℚ :=
  (input * gainLinear, gainLinear)

/-- Because `VolumeSection` does not override `reset`, so its subclass reset is the
identity on the subclass state. -/
def volumeReset (gainLinear : ℚ) : ℚ := gainLinear

/-- Abstract interface for the transcendental math library calls used by
`LowDynamicSection::processInternal` (`std::log10`, `std::sqrt`,
`std::pow(10, ·)`); passed in as parameters since the embedding is over
exact rationals. -/
structure RealOps where
  log10 : ℚ → ℚ
  sqrt : ℚ → ℚ
  exp10 : ℚ → ℚ

/-- Per-channel state of `LowDynamicSection`
(Sections/LowDynamicSection.h): parameters, detector and envelope state,
and the timing coefficients computed by `updateTimingCoefficients`. -/
structure LowDynState where
  threshold : ℚ
  ratio : ℚ
  fastMode : Bool
  mixAmount : ℚ
  rmsState : ℚ
  smoothedGain : ℚ
  currentGR : ℚ
  peakHold : ℚ
  peakHoldDecay : ℚ
  warmupSamplesRemaining : Nat
  rmsCoeff : ℚ
  attackCoeff : ℚ
  releaseCoeff : ℚ
  lifterAttackCoeff : ℚ
  lifterReleaseCoeff : ℚ
  deriving Repr

namespace LowDynamicSection

/-- STEP 2 of `LowDynamicSection::processInternal`
(LowDynamicSection.h lines 143-204): the target gain in dB computed from
the ratio knob, the threshold and the instantaneous level in dB. -/
def targetGainDB (ratio threshold instantDB : ℚ) : ℚ :=
  if instantDB < threshold then
    let dbBelowThreshold := max (threshold - instantDB) 0
    let g :=
      if ratio < 0 then
        -- downward expansion, quadratic scaling of the knob
        let absRatio := |ratio|
        let normalizedRatio := absRatio / 10
        let expansionRatio := 1 + normalizedRatio * normalizedRatio * 3
        let slope := expansionRatio - 1
        max (-dbBelowThreshold * slope) (-96)
      else if ratio > 0 then
        -- upward compression, linear scaling of the knob
        let liftAmount := ratio * (75/1000)
        dbBelowThreshold * liftAmount
      else 0
    -- hard knee: 0.5 dB quadratic transition around threshold
    let kneeWidth : ℚ := 1/2
    if dbBelowThreshold < kneeWidth then
      let kneeRatio := dbBelowThreshold / kneeWidth
      g * (kneeRatio * kneeRatio)
    else g
  else 0

/-- Embedding of `LowDynamicSection::processInternal` (LowDynamicSection.h lines
87-299), with the transcendental library calls supplied by `ops`.
Returns the output sample and the updated state. -/
def processInternal (ops : RealOps) (st : LowDynState) (input : ℚ) :
    ℚ × LowDynState :=
  if |st.ratio| < 1/100 then
    -- ratio near zero: bypass completely, reset gain to unity
    (input, { st with smoothedGain := 1, currentGR := 0 })
  else
    -- STEP 1: sidechain level detection
    let instantLevel := |input|
    let instantDB := 20 * ops.log10 (max instantLevel (1/1000000))
    let det : ℚ × LowDynState :=
      if st.fastMode then
        if st.ratio < 0 then
          -- expander: peak detection with hold
          let currentPeak := instantLevel
          let ph :=
            if currentPeak > st.peakHold then currentPeak
            else currentPeak + st.peakHoldDecay * (st.peakHold - currentPeak)
          (ph, { st with peakHold := ph })
        else
          let rs := st.rmsState * st.rmsCoeff + input * input * (1 - st.rmsCoeff)
          (ops.sqrt rs, { st with rmsState := rs })
      else
        let rs := st.rmsState * st.rmsCoeff + input * input * (1 - st.rmsCoeff)
        (ops.sqrt rs, { st with rmsState := rs })
    let detectorLevel := det.1
    let st1 := det.2
    -- STEP 2: target gain
    let tgDB := targetGainDB st.ratio st.threshold instantDB
    -- STEP 3: smooth target gain with attack/release
    let targetGainLinear := ops.exp10 (tgDB / 20)
    let isExpanding := st.ratio < 0
    let isLifting := st.ratio > 0
    let st2 :=
      if st1.warmupSamplesRemaining > 0 ∨ detectorLevel < 1/1000000 then
        -- detectors are cold: ramp up gradually, clamp to [-6dB, +6dB]
        let wr :=
          if st1.warmupSamplesRemaining > 0 then st1.warmupSamplesRemaining - 1
          else st1.warmupSamplesRemaining
        let initAttackCoeff := if isLifting then st.lifterAttackCoeff else st.attackCoeff
        let g0 := 1 + initAttackCoeff * (targetGainLinear - 1)
        let g1 := min g0 2
        let g2 := max g1 (1/2)
        { st1 with warmupSamplesRemaining := wr, smoothedGain := g2 }
      else
        if isExpanding then
          let g :=
            if targetGainLinear < st1.smoothedGain then
              targetGainLinear + st.releaseCoeff * (st1.smoothedGain - targetGainLinear)
            else
              targetGainLinear + st.attackCoeff * (st1.smoothedGain - targetGainLinear)
          { st1 with smoothedGain := g }
        else if isLifting then
          let g :=
            if targetGainLinear > st1.smoothedGain then
              targetGainLinear + st.lifterReleaseCoeff * (st1.smoothedGain - targetGainLinear)
            else
              targetGainLinear + st.lifterAttackCoeff * (st1.smoothedGain - targetGainLinear)
          { st1 with smoothedGain := g }
        else st1
    -- STEP 4: apply the smoothed gain to the original input
    let wet := input * st2.smoothedGain
    let gr := 20 * ops.log10 (max st2.smoothedGain (1/1000000))
    -- STEP 5: mix dry and wet
    let output := input * (1 - st.mixAmount) + wet * st.mixAmount
    (output, { st2 with currentGR := gr })

end LowDynamicSection

/-- The Low-Dynamic target gain as the specification words it: for
`ratio < 0` the gain is `-d * 3*(|ratio|/10)^2` hard-limited to no lower
than -96 dB, for `ratio > 0` it is `d * (ratio * 0.075)`; within the
0.5 dB knee the gain is additionally multiplied by `(d/0.5)^2`. -/
def spec_lowDynTargetGainDB (ratio threshold instantDB : ℚ) : ℚ :=
  let d := threshold - instantDB
  let base :=
    if ratio < 0 then max (-d * (3 * (|ratio| / 10) ^ 2)) (-96)
    else d * (ratio * (75/1000))
  if d < 1/2 then base * (d / (1/2)) ^ 2 else base

namespace BellFilter

/-- The base Q of `BellFilter::calculateDynamicQ` (Algorithms/BellFilter.h
lines 84-96), from the gain amount: the local `Q` before frequency
compensation. -/
def baseQ (gainDB : ℚ) : ℚ :=
  let absGain := |gainDB|
  if gainDB > 0 then
    (15/100) + (absGain / 12) * ((75/100) - (15/100))
  else
    (25/100) + (absGain / 12) * ((33/10) - (5/10))

/-- The frequency compensation factor of `BellFilter::calculateDynamicQ`
(Algorithms/BellFilter.h lines 98-116): the local `freqFactor`. -/
def freqFactor (freqHz : ℚ) : ℚ :=
  if freqHz < 500 then 11/10
  else if freqHz > 3000 then 9/10
  else
    let t := (freqHz - 500) / 2500
    11/10 + t * (9/10 - 11/10)

/-- Embedding of `BellFilter::calculateDynamicQ` (Algorithms/BellFilter.h lines
79-121): base Q from the gain amount, multiplied by the frequency
compensation factor. -/
def calculateDynamicQ (gainDB freqHz : ℚ) : ℚ :=
  baseQ gainDB * freqFactor freqHz

/-- Parameter and coefficient state of `BellFilter`
(Algorithms/BellFilter.h), with the biquad coefficient record abstracted
to a type `κ` (it is produced by the JUCE coefficient factory). -/
structure State (κ : Type) where
  sampleRate : ℚ
  freq : ℚ
  gain : ℚ
  qOffset : ℚ
  coeffs : κ

/-- Embedding of `BellFilter::updateCoefficients` (Algorithms/BellFilter.h lines
123-156), with `pow10` embedding `std::pow(10, ·)` and `mkPeak` embedding
`juce::dsp::IIR::Coefficients<float>::makePeakFilter (sampleRate, freq,
Q, gain)`.  Skips the update entirely when the sample rate is not yet
configured. -/
def updateCoefficients {κ : Type} (pow10 : ℚ → ℚ)
    (mkPeak : ℚ → ℚ → ℚ → ℚ → κ) (st : State κ) : State κ :=
  if st.sampleRate ≤ 0 then st
  else
    let q := calculateDynamicQ st.gain st.freq
    let q1 := q + st.qOffset
    let q2 := jlimit (1/10) 10 q1
    let linearGain := pow10 (st.gain / 20)
    let limitedFreq := jlimit 20 (st.sampleRate * (49/100)) st.freq
    { st with coeffs := mkPeak st.sampleRate limitedFreq q2 linearGain }

/-- Embedding of `BellFilter::setParameters`: stores frequency and gain, then updates
the coefficients. -/
def setParameters {κ : Type} (pow10 : ℚ → ℚ) (mkPeak : ℚ → ℚ → ℚ → ℚ → κ)
    (freqHz gainDB : ℚ) (st : State κ) : State κ :=
  updateCoefficients pow10 mkPeak { st with freq := freqHz, gain := gainDB }

/-- Embedding of `BellFilter::setQOffset`: stores the channel-variation Q offset, then
updates the coefficients. -/
def setQOffset {κ : Type} (pow10 : ℚ → ℚ) (mkPeak : ℚ → ℚ → ℚ → ℚ → κ)
    (offset : ℚ) (st : State κ) : State κ :=
  updateCoefficients pow10 mkPeak { st with qOffset := offset }

end BellFilter

/-- Embedding of `FilterSection::Slope` (Sections/FilterSection.h). -/
inductive Slope where
  | Slope_6dB
  | Slope_12dB
  | Slope_18dB
  deriving DecidableEq, Repr

/-- Embedding of `FilterSection::QMode` (Sections/FilterSection.h). -/
inductive QMode where
  | Normal
  | Bump
  deriving DecidableEq, Repr

namespace FilterSection

/-- Parameter and coefficient state of `FilterSection`
(Sections/FilterSection.h); the biquad coefficient records are abstracted
to `κ` (produced by the coefficient factories). -/
structure State (κ : Type) where
  sampleRate : ℚ
  hpfFreq : ℚ
  hpfSlope : Slope
  hpfQMode : QMode
  lpfFreq : ℚ
  lpfSlope : Slope
  lpfQMode : QMode
  hpfQOffset : ℚ
  lpfQOffset : ℚ
  hpf1 : κ
  hpf2 : κ
  lpf1 : κ
  lpf2 : κ

/-- Embedding of `FilterSection::updateFilters` (Sections/FilterSection.h lines
215-259), with `mkHP` and `mkLP` embedding `makeMatchedHighPass` and
`makeMatchedLowPass` as `(sampleRate, frequency, Q) → coefficients`.
Skips every coefficient update when the sample rate is not yet
configured. -/
def updateFilters {κ : Type} (mkHP mkLP : ℚ → ℚ → ℚ → κ)
    (st : State κ) : State κ :=
  if st.sampleRate ≤ 0 then st
  else
    let hpfQ := if st.hpfQMode = QMode.Normal then 707/1000 else 1
    let hpfQ1 := hpfQ + st.hpfQOffset
    let hpfQ2 := jlimit (1/10) 5 hpfQ1
    let hpfCoeffs :=
      mkHP st.sampleRate (jlimit 20 (st.sampleRate * (49/100)) st.hpfFreq) hpfQ2
    let lpfQ := if st.lpfQMode = QMode.Normal then 707/1000 else 1
    let lpfQ0 := if st.lpfSlope = Slope.Slope_6dB then 1/2 else lpfQ
    let lpfQ1 := lpfQ0 + st.lpfQOffset
    let lpfQ2 := jlimit (1/10) 5 lpfQ1
    let lpfCoeffs :=
      mkLP st.sampleRate (jlimit 20 (st.sampleRate * (49/100)) st.lpfFreq) lpfQ2
    { st with hpf1 := hpfCoeffs, hpf2 := hpfCoeffs,
              lpf1 := lpfCoeffs, lpf2 := lpfCoeffs }

/-- Embedding of `FilterSection::setHPF`: stores the HPF parameters, then runs
`updateFilters`. -/
def setHPF {κ : Type} (mkHP mkLP : ℚ → ℚ → ℚ → κ)
    (freqHz : ℚ) (slope : Slope) (qMode : QMode) (st : State κ) : State κ :=
  updateFilters mkHP mkLP
    { st with hpfFreq := freqHz, hpfSlope := slope, hpfQMode := qMode }

/-- Embedding of `FilterSection::setLPF`: stores the LPF parameters, then runs
`updateFilters`. -/
def setLPF {κ : Type} (mkHP mkLP : ℚ → ℚ → ℚ → κ)
    (freqHz : ℚ) (slope : Slope) (qMode : QMode) (st : State κ) : State κ :=
  updateFilters mkHP mkLP
    { st with lpfFreq := freqHz, lpfSlope := slope, lpfQMode := qMode }

/-- Embedding of `FilterSection::setHPFQOffset`: stores the HPF Q offset, then runs
`updateFilters`. -/
def setHPFQOffset {κ : Type} (mkHP mkLP : ℚ → ℚ → ℚ → κ)
    (offset : ℚ) (st : State κ) : State κ :=
  updateFilters mkHP mkLP { st with hpfQOffset := offset }

/-- Embedding of `FilterSection::setLPFQOffset`: stores the LPF Q offset, then runs
`updateFilters`. -/
def setLPFQOffset {κ : Type} (mkHP mkLP : ℚ → ℚ → ℚ → κ)
    (offset : ℚ) (st : State κ) : State κ :=
  updateFilters mkHP mkLP { st with lpfQOffset := offset }

end FilterSection

/-- One interleaved biquad bank of `Baxandall2` (Algorithms/Baxandall2.h):
indices 2-6 of the C++ array are the coefficients, 7-8 the state (indices
0-1 hold frequency and Q, read only by the coefficient computation). -/
structure Biquad9 where
  c2 : ℚ
  c3 : ℚ
  c4 : ℚ
  c5 : ℚ
  c6 : ℚ
  s7 : ℚ
  s8 : ℚ
  deriving Repr

/-- The biquad recurrence shared by every bank in `Baxandall2::process`:
`y = x*c[2] + c[7]; c[7] = x*c[3] - y*c[5] + c[8]; c[8] = x*c[4] - y*c[6]`. -/
def biqStep (b : Biquad9) (x : ℚ) : ℚ × Biquad9 :=
  let y := x * b.c2 + b.s7
  let s7' := x * b.c3 - y * b.c5 + b.s8
  let s8' := x * b.c4 - y * b.c6
  (y, { b with s7 := s7', s8 := s8' })

/-- Processing state of `Baxandall2` (Algorithms/Baxandall2.h): the four
interleaved biquad banks, the two linear gains and the flip flag. -/
structure BaxState where
  trebleA : Biquad9
  trebleB : Biquad9
  bassA : Biquad9
  bassB : Biquad9
  bassGainLinear : ℚ
  trebleGainLinear : ℚ
  flip : Bool
  deriving Repr

namespace Baxandall2

/-- Embedding of `Baxandall2::process` (Algorithms/Baxandall2.h lines 104-151):
denormal flush, interleaved (flip) biquad processing of a highpass-derived
treble path and a lowpass-derived bass path — both reading the same input
sample — then gains applied and the two paths summed. -/
def process (st : BaxState) (input : ℚ) : ℚ × BaxState :=
  let inputSample := if |input| < 118 / 10 ^ 25 then 0 else input
  if st.flip then
    let t := biqStep st.trebleA inputSample
    let trebleSample := inputSample - t.1
    let b := biqStep st.bassA inputSample
    let output := b.1 * st.bassGainLinear + trebleSample * st.trebleGainLinear
    (output, { st with trebleA := t.2, bassA := b.2, flip := false })
  else
    let t := biqStep st.trebleB inputSample
    let trebleSample := inputSample - t.1
    let b := biqStep st.bassB inputSample
    let output := b.1 * st.bassGainLinear + trebleSample * st.trebleGainLinear
    (output, { st with trebleB := t.2, bassB := b.2, flip := true })

end Baxandall2

/-- Modelled from the spec: the bell filters delegate their per-sample
work to `juce::dsp::IIR::Filter<float>::processSample`, JUCE library code
not under `src/` — a transposed direct form II biquad with coefficients
`b0 b1 b2 a1 a2` and state `s1 s2`. -/
structure IIRState where
  b0 : ℚ
  b1 : ℚ
  b2 : ℚ
  a1 : ℚ
  a2 : ℚ
  s1 : ℚ
  s2 : ℚ
  deriving Repr

/-- Modelled from the spec: one transposed-direct-form-II biquad step,
the semantics of `juce::dsp::IIR::Filter<float>::processSample`. -/
def iirProcessSample (f : IIRState) (x : ℚ) : ℚ × IIRState :=
  let y := f.b0 * x + f.s1
  let s1' := f.b1 * x - f.a1 * y + f.s2
  let s2' := f.b2 * x - f.a2 * y
  (y, { f with s1 := s1', s2 := s2' })

/-- Processing state of `EQSection` (Sections/EQSection.h): the combined
Baxandall shelf stage and the two bell biquads. -/
structure EQState where
  bax : BaxState
  bell1 : IIRState
  bell2 : IIRState
  deriving Repr

namespace EQSection

/-- Embedding of `EQSection::processInternal` (Sections/EQSection.h lines 135-149):
the Baxandall2 stage (bass and treble shelves together), then Bell 1,
then Bell 2. -/
def processInternal (st : EQState) (input : ℚ) : ℚ × EQState :=
  let o1 := Baxandall2.process st.bax input
  let o2 := iirProcessSample st.bell1 o1.1
  let o3 := iirProcessSample st.bell2 o2.1
  (o3.1, { bax := o1.2, bell1 := o2.2, bell2 := o3.2 })

end EQSection

/-- A bass-shelf-alone stage following the spec's words, for comparison
with the source: the Baxandall shelving topology (lowpass-derived bass
path plus highpass-derived remainder of the signal) with only the bass
gain applied — the stage the spec's order "Bass shelf → Bell 1 → Bell 2 →
Treble shelf" would place first. -/
def spec_bassShelfStage (bassGainLinear : ℚ) (bass treble : Biquad9)
    (x : ℚ) : ℚ × (Biquad9 × Biquad9) :=
  let t := biqStep treble x
  let hp := x - t.1
  let b := biqStep bass x
  (b.1 * bassGainLinear + hp, (b.2, t.2))

/-- A treble-shelf-alone stage following the spec's words: the Baxandall
shelving topology with only the treble gain applied — the stage the
spec's order would place last, after both bells. -/
def spec_trebleShelfStage (trebleGainLinear : ℚ) (bass treble : Biquad9)
    (x : ℚ) : ℚ × (Biquad9 × Biquad9) :=
  let t := biqStep treble x
  let hp := x - t.1
  let b := biqStep bass x
  (b.1 + hp * trebleGainLinear, (b.2, t.2))

/-- The EQ pipeline in the order the spec claims, built from the repo's
own shelf topology and bell biquads: bass shelf, then Bell 1, then
Bell 2, then treble shelf. -/
def spec_eqClaimedOrderProcess (bassGainLinear trebleGainLinear : ℚ)
    (bassBiq trebleBiq : Biquad9) (bell1 bell2 : IIRState)
    (bassBiq2 trebleBiq2 : Biquad9) (x : ℚ) : ℚ :=
  let st1 := spec_bassShelfStage bassGainLinear bassBiq trebleBiq x
  let st2 := iirProcessSample bell1 st1.1
  let st3 := iirProcessSample bell2 st2.1
  let st4 := spec_trebleShelfStage trebleGainLinear bassBiq2 trebleBiq2 st3.1
  st4.1

/-- A section plugged into the chain: its `processInternal` and `reset`
virtual functions over its subclass state `σ`. -/
structure Proc (σ : Type) where
  pi : σ → ℚ → ℚ × σ
  rst : σ → σ

/-- The per-channel section instances owned by
`AnalogChannelAudioProcessor` (PluginProcessor.h lines 120-129), in
declaration order; the subclass states of the eight chained sections are
abstracted to type parameters, the Low-Dynamic section keeps its concrete
state. -/
structure RackState (α β γ δ ε ζ η θ : Type) where
  preInput : BypassState α
  filters : BypassState β
  controlComp : BypassState γ
  lowDynamic : BypassState LowDynState
  eq : BypassState δ
  styleComp : BypassState ε
  console : BypassState ζ
  outStage : BypassState η
  volume : BypassState θ

/-- The per-sample signal chain of
`AnalogChannelAudioProcessor::processBlock` (PluginProcessor.cpp lines
232-256): the sample is threaded through `preInput`, `filters`,
`controlComp`, `eq`, `styleComp`, `console`, `outStage` and `volume`, in
that order; `lowDynamic` is never invoked. -/
def processSampleChain {α β γ δ ε ζ η θ : Type}
    (p1 : Proc α) (p2 : Proc β) (p3 : Proc γ) (p4 : Proc δ)
    (p5 : Proc ε) (p6 : Proc ζ) (p7 : Proc η) (p8 : Proc θ)
    (st : RackState α β γ δ ε ζ η θ) (x : ℚ) :
    ℚ × RackState α β γ δ ε ζ η θ :=
  let r1 := BypassableSection.process p1.pi p1.rst st.preInput x
  let r2 := BypassableSection.process p2.pi p2.rst st.filters r1.1
  let r3 := BypassableSection.process p3.pi p3.rst st.controlComp r2.1
  let r4 := BypassableSection.process p4.pi p4.rst st.eq r3.1
  let r5 := BypassableSection.process p5.pi p5.rst st.styleComp r4.1
  let r6 := BypassableSection.process p6.pi p6.rst st.console r5.1
  let r7 := BypassableSection.process p7.pi p7.rst st.outStage r6.1
  let r8 := BypassableSection.process p8.pi p8.rst st.volume r7.1
  (r8.1, { st with preInput := r1.2, filters := r2.2, controlComp := r3.2,
                   eq := r4.2, styleComp := r5.2, console := r6.2,
                   outStage := r7.2, volume := r8.2 })

/-- One channel of `processBlock`: every sample of the channel buffer is
threaded through the chain in order, the section states carrying over
from sample to sample; returns the output buffer and the final states. -/
def processChannelBlock {α β γ δ ε ζ η θ : Type}
    (p1 : Proc α) (p2 : Proc β) (p3 : Proc γ) (p4 : Proc δ)
    (p5 : Proc ε) (p6 : Proc ζ) (p7 : Proc η) (p8 : Proc θ)
    (st : RackState α β γ δ ε ζ η θ) :
    List ℚ → List ℚ × RackState α β γ δ ε ζ η θ
  | [] => ([], st)
  | x :: xs =>
    let r := processSampleChain p1 p2 p3 p4 p5 p6 p7 p8 st x
    let rest := processChannelBlock p1 p2 p3 p4 p5 p6 p7 p8 r.2 xs
    (r.1 :: rest.1, rest.2)

/-- Embedding of `processBlock` over the two channels (PluginProcessor.cpp lines
206-275): dual mono, each channel processed through its own rack
instance, fully independently. -/
def processBlockStereo {α β γ δ ε ζ η θ : Type}
    (p1 : Proc α) (p2 : Proc β) (p3 : Proc γ) (p4 : Proc δ)
    (p5 : Proc ε) (p6 : Proc ζ) (p7 : Proc η) (p8 : Proc θ)
    (stL stR : RackState α β γ δ ε ζ η θ) (bufL bufR : List ℚ) :
    (List ℚ × List ℚ) ×
      (RackState α β γ δ ε ζ η θ × RackState α β γ δ ε ζ η θ) :=
  let rL := processChannelBlock p1 p2 p3 p4 p5 p6 p7 p8 stL bufL
  let rR := processChannelBlock p1 p2 p3 p4 p5 p6 p7 p8 stR bufR
  ((rL.1, rR.1), (rL.2, rR.2))

/-- All eight chained sections of a rack have their bypass target set. -/
def allBypassed {α β γ δ ε ζ η θ : Type}
    (st : RackState α β γ δ ε ζ η θ) : Prop :=
  st.preInput.targetBypass = true ∧ st.filters.targetBypass = true ∧
  st.controlComp.targetBypass = true ∧ st.eq.targetBypass = true ∧
  st.styleComp.targetBypass = true ∧ st.console.targetBypass = true ∧
  st.outStage.targetBypass = true ∧ st.volume.targetBypass = true

section Theorems

open BypassableSection

/-- Helper: while the bypass target is set, `process` returns the input
sample unchanged. -/
theorem process_bypassed_fst {σ : Type} (pi : σ → ℚ → ℚ × σ) (rst : σ → σ)
    (s : BypassState σ) (x : ℚ) (h : s.targetBypass = true) :
    (process pi rst s x).1 = x := by
  simp only [process, h]
  split_ifs <;> rfl

/-- Helper: `process` never changes the bypass target flag. -/
theorem process_target_invariant {σ : Type} (pi : σ → ℚ → ℚ × σ)
    (rst : σ → σ) (s : BypassState σ) (x : ℚ) :
    (process pi rst s x).2.targetBypass = s.targetBypass := by
  simp only [process]
  split_ifs <;> rfl

/-- C1 (amended): `BypassableSection::process` computes the wet signal via
`processInternal` only while the section is not bypassed: fully active it
returns the wet sample, fading back from bypass it returns
`wet*(1-mix) + input*mix` with the freshly updated mix, and whenever the
bypass target is set — fading toward bypass included — it skips
`processInternal` entirely and returns the dry input, the subclass state
advancing only through `reset` (at the instant bypass engages) and never
through `processInternal`. -/
theorem process_output_characterization {σ : Type} (pi : σ → ℚ → ℚ × σ)
    (rst : σ → σ) (s : BypassState σ) (x : ℚ) :
    (process pi rst s x).1 =
      (if s.targetBypass then x
       else if s.bypassMix > 1/100 then
         let m := s.bypassMix + (0 - s.bypassMix) * s.fadeCoeff
         let m' := if m < 1/100 then 0 else m
         (pi s.inner x).1 * (1 - m') + x * m'
       else (pi s.inner x).1) ∧
    (process pi rst s x).2.inner =
      (if s.targetBypass then
         (if s.bypassMix = 0 then rst s.inner else s.inner)
       else (pi s.inner x).2) := by
  constructor <;> · simp only [process]; split_ifs <;> rfl

/-- C1 (counterexample): with the repository's `VolumeSection` at linear
gain 2 as the subclass, a section whose bypass target is set and whose
crossfade mix is mid-fade at 1/2 returns the dry input 1, which differs
from the value `wet*(1-bypassMix) + input*bypassMix` the claim prescribes
— whether the mix is read before (1/2) or after (221/441) the per-sample
update. -/
theorem process_bypassed_no_crossfade_counterexample :
    (process volumeProcessInternal volumeReset
        ⟨true, 1/2, 1/441, 2⟩ 1).1 = 1 ∧
    (volumeProcessInternal (2 : ℚ) 1).1 * (1 - 1/2) + 1 * (1/2) ≠ (1 : ℚ) ∧
    (volumeProcessInternal (2 : ℚ) 1).1 * (1 - 221/441) + 1 * (221/441) ≠ (1 : ℚ) := by
  refine ⟨by norm_num [process], by norm_num [volumeProcessInternal],
    by norm_num [volumeProcessInternal]⟩

/-- C2 (code evaluated at the failing input): the bypass crossfade is not
click-free in the engage direction.  A `VolumeSection` at linear gain 2
(about +6 dB), fully active (mix 0, 44.1 kHz fade coefficient 1/441), fed
the constant input 1/2, outputs 1; on the very next sample after
`setBypass(true)` the fade-to-bypass branch returns the dry input 1/2
without crossfading the wet signal, a consecutive-sample jump of 1/2 —
far above any small epsilon, contradicting the claimed continuity. -/
theorem bypass_engage_output_jump :
    (process volumeProcessInternal volumeReset
        ⟨false, 0, 1/441, 2⟩ (1/2)).1 = 1 ∧
    (process volumeProcessInternal volumeReset
        (setBypass true
          (process volumeProcessInternal volumeReset
            ⟨false, 0, 1/441, 2⟩ (1/2)).2) (1/2)).1 = 1/2 ∧
    ¬((1 : ℚ) - 1/2 < 1/100) := by
  refine ⟨by norm_num [process, volumeProcessInternal],
    by norm_num [process, setBypass, volumeProcessInternal], by norm_num⟩

/-- C10: whenever the bypass target is set and `process` runs while the
crossfade mix is still exactly 0, the subclass state is reset at that
instant: the resulting inner state is `reset` applied to the previous
inner state (and `processInternal` is not consulted). -/
theorem process_resets_on_bypass_engage {σ : Type} (pi : σ → ℚ → ℚ × σ)
    (rst : σ → σ) (s : BypassState σ) (x : ℚ)
    (hb : s.targetBypass = true) (hm : s.bypassMix = 0) :
    (process pi rst s x).2.inner = rst s.inner := by
  simp only [process, hb, hm]
  norm_num

/-- C10 witness: concrete instance (VolumeSection subclass state 2, reset
modelled as the identity the source uses, mix exactly 0, bypass engaged). -/
theorem process_resets_on_bypass_engage_witness :
    (⟨true, 0, 1/441, (2 : ℚ)⟩ : BypassState ℚ).targetBypass = true ∧
    (⟨true, 0, 1/441, (2 : ℚ)⟩ : BypassState ℚ).bypassMix = 0 ∧
    (process volumeProcessInternal volumeReset
        ⟨true, 0, 1/441, 2⟩ 1).2.inner = volumeReset 2 :=
  ⟨rfl, rfl,
    process_resets_on_bypass_engage volumeProcessInternal volumeReset
      ⟨true, 0, 1/441, 2⟩ 1 rfl rfl⟩

end Theorems

/-- C5: when the ratio knob is within the code's zero tolerance
(`|ratio| < 0.01`), `LowDynamicSection::processInternal` returns the input
sample unchanged — exact sample-for-sample bypass, for every input and
every state of the detectors and envelope. -/
theorem lowdyn_ratio_zero_exact_bypass (ops : RealOps) (st : LowDynState)
    (x : ℚ) (h : |st.ratio| < 1/100) :
    (LowDynamicSection.processInternal ops st x).1 = x := by
  simp only [LowDynamicSection.processInternal, if_pos h]

/-- C5 witness: a concrete state with ratio 0 and arbitrary detector
state, fed the sample 3/4, with identity stand-ins for the library math. -/
theorem lowdyn_ratio_zero_exact_bypass_witness :
    |(0 : ℚ)| < 1/100 ∧
    (LowDynamicSection.processInternal ⟨id, id, id⟩
        ⟨-20, 0, false, 1, 1/9, 1, 0, 1/7, 1/2, 100, 1/2, 1/2, 1/2, 1/2, 1/2⟩
        (3/4)).1 = 3/4 :=
  ⟨by norm_num,
    lowdyn_ratio_zero_exact_bypass ⟨id, id, id⟩
      ⟨-20, 0, false, 1, 1/9, 1, 0, 1/7, 1/2, 100, 1/2, 1/2, 1/2, 1/2, 1/2⟩
      (3/4) (by norm_num)⟩

/-- C6: whenever the instantaneous level sits `d` dB below threshold with
`d > 0`, the Low-Dynamic target gain matches the spec's formula: for
`ratio < 0` it is `-d * 3*(|ratio|/10)^2` hard-limited to no lower than
-96 dB, for `ratio > 0` it is `+d * (ratio * 0.075)`, and within the
0.5 dB knee the gain is additionally multiplied by `(d/0.5)^2`. -/
theorem lowdyn_target_gain_formula (ratio threshold instantDB : ℚ)
    (h : instantDB < threshold) (hr : ratio < 0 ∨ 0 < ratio) :
    LowDynamicSection.targetGainDB ratio threshold instantDB =
      spec_lowDynTargetGainDB ratio threshold instantDB := by
  have hd : max (threshold - instantDB) 0 = threshold - instantDB :=
    max_eq_left (by linarith)
  rcases hr with hneg | hpos
  · simp only [LowDynamicSection.targetGainDB, spec_lowDynTargetGainDB,
      if_pos h, hd, if_pos hneg]
    have e1 : -(threshold - instantDB) * (1 + |ratio| / 10 * (|ratio| / 10) * 3 - 1) =
        -(threshold - instantDB) * (3 * (|ratio| / 10) ^ 2) := by ring
    have e2 : (threshold - instantDB) / (1/2) * ((threshold - instantDB) / (1/2)) =
        ((threshold - instantDB) / (1/2)) ^ 2 := by ring
    rw [e1, e2]
  · have hn : ¬ ratio < 0 := by linarith
    simp only [LowDynamicSection.targetGainDB, spec_lowDynTargetGainDB,
      if_pos h, hd, if_neg hn, if_pos hpos]
    have e2 : (threshold - instantDB) / (1/2) * ((threshold - instantDB) / (1/2)) =
        ((threshold - instantDB) / (1/2)) ^ 2 := by ring
    rw [e2]

/-- C6 witness: ratio -10 (full expansion), threshold -20 dB, instant
level -40 dB (20 dB below threshold): both the source computation and the
spec formula give -60 dB. -/
theorem lowdyn_target_gain_formula_witness :
    (-40 : ℚ) < -20 ∧ ((-10 : ℚ) < 0 ∨ (0 : ℚ) < -10) ∧
    LowDynamicSection.targetGainDB (-10) (-20) (-40) =
      spec_lowDynTargetGainDB (-10) (-20) (-40) ∧
    LowDynamicSection.targetGainDB (-10) (-20) (-40) = -60 :=
  ⟨by norm_num, Or.inl (by norm_num),
    lowdyn_target_gain_formula (-10) (-20) (-40) (by norm_num)
      (Or.inl (by norm_num)),
    by norm_num [LowDynamicSection.targetGainDB]⟩

/-- C7 (counterexample): the claimed order "Bass shelf → Bell 1 → Bell 2 →
Treble shelf" does not describe `EQSection::processInternal`.  With both
shelf-path biquads at coefficient `c2 = 1/2` (state cleared), bass gain 2,
treble gain 4 and both bells the identity biquad, the source pipeline —
the combined Baxandall stage first, bells after — outputs 3 on input 1,
whereas processing the bass shelf, the bells, and then the treble shelf
in the claimed serial order outputs 15/4. -/
theorem eq_section_claimed_order_counterexample :
    (EQSection.processInternal
        ⟨⟨⟨1/2, 0, 0, 0, 0, 0, 0⟩, ⟨1/2, 0, 0, 0, 0, 0, 0⟩,
          ⟨1/2, 0, 0, 0, 0, 0, 0⟩, ⟨1/2, 0, 0, 0, 0, 0, 0⟩, 2, 4, false⟩,
        ⟨1, 0, 0, 0, 0, 0, 0⟩, ⟨1, 0, 0, 0, 0, 0, 0⟩⟩ 1).1 = 3 ∧
    spec_eqClaimedOrderProcess 2 4 ⟨1/2, 0, 0, 0, 0, 0, 0⟩
        ⟨1/2, 0, 0, 0, 0, 0, 0⟩ ⟨1, 0, 0, 0, 0, 0, 0⟩ ⟨1, 0, 0, 0, 0, 0, 0⟩
        ⟨1/2, 0, 0, 0, 0, 0, 0⟩ ⟨1/2, 0, 0, 0, 0, 0, 0⟩ 1 = 15/4 ∧
    (3 : ℚ) ≠ 15/4 := by
  refine ⟨?_, ?_, by norm_num⟩
  · norm_num [EQSection.processInternal, Baxandall2.process, biqStep,
      iirProcessSample]
  · norm_num [spec_eqClaimedOrderProcess, spec_bassShelfStage,
      spec_trebleShelfStage, biqStep, iirProcessSample]

/-- C7 (amended): `EQSection::processInternal` applies the combined
Baxandall2 shelving stage first — bass and treble shelves computed in
parallel from the raw section input and summed — then Bell 1, then
Bell 2; the treble shelf therefore processes the signal before, not
after, the bell filters. -/
theorem eq_section_order (st : EQState) (x : ℚ) :
    (EQSection.processInternal st x).1 =
      (iirProcessSample st.bell2
        (iirProcessSample st.bell1 (Baxandall2.process st.bax x).1).1).1 ∧
    (EQSection.processInternal st x).2.bax = (Baxandall2.process st.bax x).2 ∧
    (EQSection.processInternal st x).2.bell1 =
      (iirProcessSample st.bell1 (Baxandall2.process st.bax x).1).2 ∧
    (EQSection.processInternal st x).2.bell2 =
      (iirProcessSample st.bell2
        (iirProcessSample st.bell1 (Baxandall2.process st.bax x).1).1).2 :=
  ⟨rfl, rfl, rfl, rfl⟩

/-- C8: the dynamically computed bell Q.  For every gain in [-12,12] dB
and every frequency: positive gain gives a base Q scaling linearly from
0.15 to 0.75; negative gain gives a base Q within [0.25, 3.3]; the base Q
is multiplied by 1.1 below 500 Hz, by 0.9 above 3000 Hz and by a linear
interpolation between those factors on [500, 3000] Hz; and (for any
configured sample rate) `updateCoefficients` adds the channel-variation Q
offset and clamps the result to [0.1, 10] before handing it to the biquad
coefficient factory. -/
theorem bell_dynamic_q_spec {κ : Type} (g f : ℚ)
    (hg1 : -12 ≤ g) (hg2 : g ≤ 12) :
    (0 < g → BellFilter.baseQ g = 15/100 + (g / 12) * (60/100) ∧
      15/100 ≤ BellFilter.baseQ g ∧ BellFilter.baseQ g ≤ 75/100) ∧
    (g < 0 → 25/100 ≤ BellFilter.baseQ g ∧ BellFilter.baseQ g ≤ 33/10) ∧
    (f < 500 → BellFilter.freqFactor f = 11/10) ∧
    (3000 < f → BellFilter.freqFactor f = 9/10) ∧
    (500 ≤ f → f ≤ 3000 →
      BellFilter.freqFactor f = 11/10 + ((f - 500) / 2500) * (9/10 - 11/10)) ∧
    BellFilter.calculateDynamicQ g f =
      BellFilter.baseQ g * BellFilter.freqFactor f ∧
    (∀ (pow10 : ℚ → ℚ) (mkPeak : ℚ → ℚ → ℚ → ℚ → κ)
        (st : BellFilter.State κ), 0 < st.sampleRate →
      (BellFilter.updateCoefficients pow10 mkPeak st).coeffs =
        mkPeak st.sampleRate
          (jlimit 20 (st.sampleRate * (49/100)) st.freq)
          (jlimit (1/10) 10
            (BellFilter.calculateDynamicQ st.gain st.freq + st.qOffset))
          (pow10 (st.gain / 20))) := by
  refine ⟨?_, ?_, ?_, ?_, ?_, rfl, ?_⟩
  · intro hp
    have ha : |g| = g := abs_of_pos hp
    simp only [BellFilter.baseQ, if_pos hp, ha]
    refine ⟨by ring, by nlinarith, by nlinarith⟩
  · intro hn
    have hng : ¬ g > 0 := by linarith
    have ha : |g| = -g := abs_of_neg hn
    simp only [BellFilter.baseQ, if_neg hng, ha]
    constructor <;> nlinarith
  · intro hlt
    simp only [BellFilter.freqFactor, if_pos hlt]
  · intro hgt
    have h1 : ¬ f < 500 := by linarith
    simp only [BellFilter.freqFactor, if_neg h1, if_pos hgt]
  · intro h1 h2
    have h3 : ¬ f < 500 := by linarith
    have h4 : ¬ f > 3000 := by linarith
    simp only [BellFilter.freqFactor, if_neg h3, if_neg h4]
  · intro pow10 mkPeak st hsr
    have h0 : ¬ st.sampleRate ≤ 0 := by linarith
    simp only [BellFilter.updateCoefficients, if_neg h0]

/-- C8 witness: gain +6 dB, frequency 1000 Hz, and a concrete
`updateCoefficients` run observed through a coefficient factory that
records its arguments. -/
theorem bell_dynamic_q_spec_witness :
    (-12 : ℚ) ≤ 6 ∧ (6 : ℚ) ≤ 12 ∧
    ((0 : ℚ) < 6 → BellFilter.baseQ 6 = 15/100 + ((6 : ℚ) / 12) * (60/100) ∧
      15/100 ≤ BellFilter.baseQ 6 ∧ BellFilter.baseQ 6 ≤ 75/100) ∧
    (∀ (pow10 : ℚ → ℚ) (mkPeak : ℚ → ℚ → ℚ → ℚ → ℚ × ℚ × ℚ × ℚ)
        (st : BellFilter.State (ℚ × ℚ × ℚ × ℚ)), 0 < st.sampleRate →
      (BellFilter.updateCoefficients pow10 mkPeak st).coeffs =
        mkPeak st.sampleRate
          (jlimit 20 (st.sampleRate * (49/100)) st.freq)
          (jlimit (1/10) 10
            (BellFilter.calculateDynamicQ st.gain st.freq + st.qOffset))
          (pow10 (st.gain / 20))) :=
  ⟨by norm_num, by norm_num,
    (bell_dynamic_q_spec (κ := ℚ × ℚ × ℚ × ℚ) 6 1000 (by norm_num)
      (by norm_num)).1,
    (bell_dynamic_q_spec (κ := ℚ × ℚ × ℚ × ℚ) 6 1000 (by norm_num)
      (by norm_num)).2.2.2.2.2.2⟩

/-- C9: with a stored sample rate ≤ 0 every coefficient-updating setter —
`FilterSection::setHPF`, `setLPF`, `setHPFQOffset`, `setLPFQOffset`,
`BellFilter::setParameters` and `BellFilter::setQOffset` — leaves all
previously computed filter coefficients exactly as they were: the update
is skipped before any frequency or Q arithmetic runs. -/
theorem samplerate_unconfigured_setters_keep_coeffs {κ : Type}
    (mkHP mkLP : ℚ → ℚ → ℚ → κ) (pow10 : ℚ → ℚ)
    (mkPeak : ℚ → ℚ → ℚ → ℚ → κ)
    (fst : FilterSection.State κ) (bst : BellFilter.State κ)
    (hf : fst.sampleRate ≤ 0) (hb : bst.sampleRate ≤ 0)
    (freq gain off : ℚ) (slope : Slope) (qMode : QMode) :
    ((FilterSection.setHPF mkHP mkLP freq slope qMode fst).hpf1 = fst.hpf1 ∧
     (FilterSection.setHPF mkHP mkLP freq slope qMode fst).hpf2 = fst.hpf2 ∧
     (FilterSection.setHPF mkHP mkLP freq slope qMode fst).lpf1 = fst.lpf1 ∧
     (FilterSection.setHPF mkHP mkLP freq slope qMode fst).lpf2 = fst.lpf2) ∧
    ((FilterSection.setLPF mkHP mkLP freq slope qMode fst).hpf1 = fst.hpf1 ∧
     (FilterSection.setLPF mkHP mkLP freq slope qMode fst).hpf2 = fst.hpf2 ∧
     (FilterSection.setLPF mkHP mkLP freq slope qMode fst).lpf1 = fst.lpf1 ∧
     (FilterSection.setLPF mkHP mkLP freq slope qMode fst).lpf2 = fst.lpf2) ∧
    ((FilterSection.setHPFQOffset mkHP mkLP off fst).hpf1 = fst.hpf1 ∧
     (FilterSection.setHPFQOffset mkHP mkLP off fst).hpf2 = fst.hpf2 ∧
     (FilterSection.setHPFQOffset mkHP mkLP off fst).lpf1 = fst.lpf1 ∧
     (FilterSection.setHPFQOffset mkHP mkLP off fst).lpf2 = fst.lpf2) ∧
    ((FilterSection.setLPFQOffset mkHP mkLP off fst).hpf1 = fst.hpf1 ∧
     (FilterSection.setLPFQOffset mkHP mkLP off fst).hpf2 = fst.hpf2 ∧
     (FilterSection.setLPFQOffset mkHP mkLP off fst).lpf1 = fst.lpf1 ∧
     (FilterSection.setLPFQOffset mkHP mkLP off fst).lpf2 = fst.lpf2) ∧
    (BellFilter.setParameters pow10 mkPeak freq gain bst).coeffs = bst.coeffs ∧
    (BellFilter.setQOffset pow10 mkPeak off bst).coeffs = bst.coeffs := by
  refine ⟨?_, ?_, ?_, ?_, ?_, ?_⟩ <;>
    simp [FilterSection.setHPF, FilterSection.setLPF,
      FilterSection.setHPFQOffset, FilterSection.setLPFQOffset,
      FilterSection.updateFilters, BellFilter.setParameters,
      BellFilter.setQOffset, BellFilter.updateCoefficients, hf, hb]

/-- C9 witness: a concrete unconfigured filter state (sample rate 0) with
distinguishable coefficient records; every setter leaves them intact. -/
theorem samplerate_unconfigured_setters_keep_coeffs_witness :
    ((0 : ℚ) ≤ 0) ∧
    (FilterSection.setHPF (fun a b c => (a, b, c)) (fun a b c => (a, b, c))
      100 Slope.Slope_18dB QMode.Bump
      ⟨0, 20, Slope.Slope_12dB, QMode.Normal, 24000, Slope.Slope_6dB,
        QMode.Normal, 0, 0, (1, 2, 3), (4, 5, 6), (7, 8, 9),
        (10, 11, 12)⟩).hpf1 = (1, 2, 3) ∧
    (BellFilter.setQOffset (fun x => x) (fun a b c _ => (a, b, c)) (3/50)
      ⟨0, 1000, 0, 0, ((5 : ℚ), (6 : ℚ), (7 : ℚ))⟩).coeffs = (5, 6, 7) := by
  have h := samplerate_unconfigured_setters_keep_coeffs
    (fun a b c => (a, b, c)) (fun a b c => (a, b, c)) (fun x => x)
    (fun a b c _ => (a, b, c))
    ⟨0, 20, Slope.Slope_12dB, QMode.Normal, 24000, Slope.Slope_6dB,
      QMode.Normal, 0, 0, ((1 : ℚ), (2 : ℚ), (3 : ℚ)), (4, 5, 6), (7, 8, 9),
      (10, 11, 12)⟩
    ⟨0, 1000, 0, 0, ((5 : ℚ), (6 : ℚ), (7 : ℚ))⟩
    le_rfl le_rfl 100 0 (3/50) Slope.Slope_18dB QMode.Bump
  exact ⟨le_rfl, h.1.1, h.2.2.2.2.2⟩

/-- Helper: a sample passes through a fully-bypass-targeted chain
unchanged. -/
theorem processSampleChain_bypassed_fst {α β γ δ ε ζ η θ : Type}
    (p1 : Proc α) (p2 : Proc β) (p3 : Proc γ) (p4 : Proc δ)
    (p5 : Proc ε) (p6 : Proc ζ) (p7 : Proc η) (p8 : Proc θ)
    (st : RackState α β γ δ ε ζ η θ) (x : ℚ) (h : allBypassed st) :
    (processSampleChain p1 p2 p3 p4 p5 p6 p7 p8 st x).1 = x := by
  obtain ⟨h1, h2, h3, h4, h5, h6, h7, h8⟩ := h
  simp only [processSampleChain]
  rw [process_bypassed_fst _ _ _ _ h1, process_bypassed_fst _ _ _ _ h2,
    process_bypassed_fst _ _ _ _ h3, process_bypassed_fst _ _ _ _ h4,
    process_bypassed_fst _ _ _ _ h5, process_bypassed_fst _ _ _ _ h6,
    process_bypassed_fst _ _ _ _ h7, process_bypassed_fst _ _ _ _ h8]

/-- Helper: processing a sample never changes any section's bypass
target. -/
theorem processSampleChain_preserves_bypassed {α β γ δ ε ζ η θ : Type}
    (p1 : Proc α) (p2 : Proc β) (p3 : Proc γ) (p4 : Proc δ)
    (p5 : Proc ε) (p6 : Proc ζ) (p7 : Proc η) (p8 : Proc θ)
    (st : RackState α β γ δ ε ζ η θ) (x : ℚ) (h : allBypassed st) :
    allBypassed (processSampleChain p1 p2 p3 p4 p5 p6 p7 p8 st x).2 := by
  obtain ⟨h1, h2, h3, h4, h5, h6, h7, h8⟩ := h
  refine ⟨?_, ?_, ?_, ?_, ?_, ?_, ?_, ?_⟩ <;>
    simp only [processSampleChain] <;>
    rw [process_target_invariant] <;> assumption

/-- Helper: a whole buffer passes through a fully-bypass-targeted chain
unchanged. -/
theorem processChannelBlock_bypassed {α β γ δ ε ζ η θ : Type}
    (p1 : Proc α) (p2 : Proc β) (p3 : Proc γ) (p4 : Proc δ)
    (p5 : Proc ε) (p6 : Proc ζ) (p7 : Proc η) (p8 : Proc θ)
    (buf : List ℚ) (st : RackState α β γ δ ε ζ η θ) (h : allBypassed st) :
    (processChannelBlock p1 p2 p3 p4 p5 p6 p7 p8 st buf).1 = buf := by
  induction buf generalizing st with
  | nil => rfl
  | cons x xs ih =>
    simp only [processChannelBlock]
    rw [processSampleChain_bypassed_fst _ _ _ _ _ _ _ _ _ _ h,
      ih _ (processSampleChain_preserves_bypassed _ _ _ _ _ _ _ _ _ _ h)]

/-- C3: with all eight chained sections of both channels set to bypass,
`processBlock` writes back an output buffer identical to the input
buffer, independently for each of the two channels — every bypassed
section returns its input sample verbatim, so the chain is the exact
identity sample for sample. -/
theorem fully_bypassed_block_identity {α β γ δ ε ζ η θ : Type}
    (p1 : Proc α) (p2 : Proc β) (p3 : Proc γ) (p4 : Proc δ)
    (p5 : Proc ε) (p6 : Proc ζ) (p7 : Proc η) (p8 : Proc θ)
    (stL stR : RackState α β γ δ ε ζ η θ) (bufL bufR : List ℚ)
    (hL : allBypassed stL) (hR : allBypassed stR) :
    (processBlockStereo p1 p2 p3 p4 p5 p6 p7 p8 stL stR bufL bufR).1 =
      (bufL, bufR) := by
  simp only [processBlockStereo]
  rw [processChannelBlock_bypassed _ _ _ _ _ _ _ _ _ _ hL,
    processChannelBlock_bypassed _ _ _ _ _ _ _ _ _ _ hR]

/-- C3 witness: a concrete two-channel block (left buffer [1/2, -1/3],
right buffer [1/4]) through racks whose eight chained sections are all
bypassed (VolumeSection-style gain-2 subclasses; the Low-Dynamic member,
which the chain never touches, active) comes out identical. -/
theorem fully_bypassed_block_identity_witness :
    allBypassed (⟨⟨true, 0, 1/441, 2⟩, ⟨true, 0, 1/441, 2⟩,
        ⟨true, 0, 1/441, 2⟩,
        ⟨false, 0, 1/441, ⟨-20, 0, false, 1, 0, 1, 0, 0, 0, 100, 0, 0, 0, 0, 0⟩⟩,
        ⟨true, 0, 1/441, 2⟩, ⟨true, 0, 1/441, 2⟩, ⟨true, 0, 1/441, 2⟩,
        ⟨true, 0, 1/441, 2⟩, ⟨true, 0, 1/441, 2⟩⟩ :
      RackState ℚ ℚ ℚ ℚ ℚ ℚ ℚ ℚ) ∧
    (processBlockStereo ⟨volumeProcessInternal, volumeReset⟩
        ⟨volumeProcessInternal, volumeReset⟩ ⟨volumeProcessInternal, volumeReset⟩
        ⟨volumeProcessInternal, volumeReset⟩ ⟨volumeProcessInternal, volumeReset⟩
        ⟨volumeProcessInternal, volumeReset⟩ ⟨volumeProcessInternal, volumeReset⟩
        ⟨volumeProcessInternal, volumeReset⟩
        ⟨⟨true, 0, 1/441, 2⟩, ⟨true, 0, 1/441, 2⟩, ⟨true, 0, 1/441, 2⟩,
          ⟨false, 0, 1/441, ⟨-20, 0, false, 1, 0, 1, 0, 0, 0, 100, 0, 0, 0, 0, 0⟩⟩,
          ⟨true, 0, 1/441, 2⟩, ⟨true, 0, 1/441, 2⟩, ⟨true, 0, 1/441, 2⟩,
          ⟨true, 0, 1/441, 2⟩, ⟨true, 0, 1/441, 2⟩⟩
        ⟨⟨true, 0, 1/441, 2⟩, ⟨true, 0, 1/441, 2⟩, ⟨true, 0, 1/441, 2⟩,
          ⟨false, 0, 1/441, ⟨-20, 0, false, 1, 0, 1, 0, 0, 0, 100, 0, 0, 0, 0, 0⟩⟩,
          ⟨true, 0, 1/441, 2⟩, ⟨true, 0, 1/441, 2⟩, ⟨true, 0, 1/441, 2⟩,
          ⟨true, 0, 1/441, 2⟩, ⟨true, 0, 1/441, 2⟩⟩
        [1/2, -1/3] [1/4]).1 = ([1/2, -1/3], [1/4]) := by
  refine ⟨⟨rfl, rfl, rfl, rfl, rfl, rfl, rfl, rfl⟩, ?_⟩
  exact fully_bypassed_block_identity _ _ _ _ _ _ _ _ _ _ _ _
    ⟨rfl, rfl, rfl, rfl, rfl, rfl, rfl, rfl⟩
    ⟨rfl, rfl, rfl, rfl, rfl, rfl, rfl, rfl⟩

/-- Helper: the channel block output does not depend on the Low-Dynamic
member, which the per-sample chain never invokes. -/
theorem processChannelBlock_lowdyn_independent {α β γ δ ε ζ η θ : Type}
    (p1 : Proc α) (p2 : Proc β) (p3 : Proc γ) (p4 : Proc δ)
    (p5 : Proc ε) (p6 : Proc ζ) (p7 : Proc η) (p8 : Proc θ)
    (buf : List ℚ) :
    ∀ (s1 : BypassState α) (s2 : BypassState β) (s3 : BypassState γ)
      (s4 : BypassState δ) (s5 : BypassState ε) (s6 : BypassState ζ)
      (s7 : BypassState η) (s8 : BypassState θ)
      (L L' : BypassState LowDynState),
    (processChannelBlock p1 p2 p3 p4 p5 p6 p7 p8
        ⟨s1, s2, s3, L, s4, s5, s6, s7, s8⟩ buf).1 =
      (processChannelBlock p1 p2 p3 p4 p5 p6 p7 p8
        ⟨s1, s2, s3, L', s4, s5, s6, s7, s8⟩ buf).1 := by
  induction buf with
  | nil => intro s1 s2 s3 s4 s5 s6 s7 s8 L L'; rfl
  | cons x xs ih =>
    intro s1 s2 s3 s4 s5 s6 s7 s8 L L'
    simp only [processChannelBlock]
    congr 1
    exact ih _ _ _ _ _ _ _ _ _ _

/-- C4: the audio output is independent of the Low-Dynamic sections'
parameters and internal state.  Two stereo runs on the same input buffers
whose racks agree on all sections except the `lowDynamic` members —
which hold the Low-Dynamic threshold, ratio, fast mode, mix, detectors
and bypass state — produce identical output buffers on both channels,
because the per-sample chain invokes only `preInput`, `filters`,
`controlComp`, `eq`, `styleComp`, `console`, `outStage` and `volume`. -/
theorem lowdynamic_noninterference {α β γ δ ε ζ η θ : Type}
    (p1 : Proc α) (p2 : Proc β) (p3 : Proc γ) (p4 : Proc δ)
    (p5 : Proc ε) (p6 : Proc ζ) (p7 : Proc η) (p8 : Proc θ)
    (s1 t1 : BypassState α) (s2 t2 : BypassState β) (s3 t3 : BypassState γ)
    (s4 t4 : BypassState δ) (s5 t5 : BypassState ε) (s6 t6 : BypassState ζ)
    (s7 t7 : BypassState η) (s8 t8 : BypassState θ)
    (L1 L1' L2 L2' : BypassState LowDynState) (bufL bufR : List ℚ) :
    (processBlockStereo p1 p2 p3 p4 p5 p6 p7 p8
        ⟨s1, s2, s3, L1, s4, s5, s6, s7, s8⟩
        ⟨t1, t2, t3, L2, t4, t5, t6, t7, t8⟩ bufL bufR).1 =
      (processBlockStereo p1 p2 p3 p4 p5 p6 p7 p8
        ⟨s1, s2, s3, L1', s4, s5, s6, s7, s8⟩
        ⟨t1, t2, t3, L2', t4, t5, t6, t7, t8⟩ bufL bufR).1 := by
  simp only [processBlockStereo, Prod.mk.injEq]
  exact ⟨processChannelBlock_lowdyn_independent _ _ _ _ _ _ _ _ _ _ _ _ _ _ _ _ _ _ _,
    processChannelBlock_lowdyn_independent _ _ _ _ _ _ _ _ _ _ _ _ _ _ _ _ _ _ _⟩
